import Mathlib

/-!
Shallow embedding of the coordination core of the `strudel-obsidian` plugin
(`src/main.ts`): the plugin-wide editor-state registry, solo/playback
arbitration (`stopEditors`, `hasActiveSoloEditor`, `handleEvaluate`,
`handleStop`, the solo-button toggle), the safe code-block write-back guard
(`updateCodeBlockIfSafe`), teardown (`child.onunload`), the generic
`debounce` utility (`src/utils`), and the advisory cleanup governor
(documented but absent from the sources, modelled from the spec).

Elements (DOM nodes keyed in the `editorStates` map) are represented by
natural numbers; the external `StrudelMirror` engine handle is dropped and
the outcome of its asynchronous `evaluate()` call is passed in as a boolean.
The host is single threaded, so each handler runs atomically here.
-/

/-- The per-block record stored in `editorStates`
(`{ isPlaying: boolean; isSolo: boolean; editor }`, engine handle dropped). -/
structure EditorState where
  isPlaying : Bool
  isSolo : Bool
deriving DecidableEq, Repr

/-- The plugin-wide registry: the set of registered elements (keys of the
`editorStates` map) together with the state stored for each element. -/
structure PluginState where
  elems : List Nat
  states : Nat → EditorState

/-- Overwrite the record stored for one element (mutation of the object held
in the map). -/
def setState (el : Nat) (st : EditorState) (s : PluginState) : PluginState :=
  { s with states := fun e => if e = el then st else s.states e }

/-- Source `stopEditors(predicate)`, with a per-element failure oracle: for every
registered element matched by the predicate, `state.editor.stop()` is
attempted inside its own try/catch; when the stop throws (`fails e`), the
subsequent `state.isPlaying = false` assignment is skipped and the loop
continues.  Returns the new registry and the list of elements whose stop was
attempted. -/
def stopEditorsF (p : Nat → EditorState → Bool) (fails : Nat → Bool)
    (s : PluginState) : PluginState × List Nat :=
  ({ s with states := fun e =>
      if e ∈ s.elems ∧ p e (s.states e) = true ∧ fails e = false then
        { s.states e with isPlaying := false }
      else s.states e },
   s.elems.filter (fun e => p e (s.states e)))

/-- Source `stopEditors(predicate)` in the normal case where no stop throws. -/
def stopEditors (p : Nat → EditorState → Bool) (s : PluginState) : PluginState :=
  (stopEditorsF p (fun _ => false) s).1

/-- Source `stopAllOtherPlayingEditors(currentElement)`. -/
def stopAllOtherPlayingEditors (cur : Nat) (s : PluginState) : PluginState :=
  stopEditors (fun e st => (e != cur) && st.isPlaying) s

/-- Source `stopAllOtherEditors(currentElement)` (same predicate as above in the source). -/
def stopAllOtherEditors (cur : Nat) (s : PluginState) : PluginState :=
  stopEditors (fun e st => (e != cur) && st.isPlaying) s

/-- Source `hasActiveSoloEditor(excludeElement)`. -/
def hasActiveSoloEditor (excl : Nat) (s : PluginState) : Bool :=
  s.elems.any (fun e => (e != excl) && (s.states e).isSolo && (s.states e).isPlaying)

/-- The arbitration block at the start of `handleEvaluate`: when the
requester is registered and `isSolo`, stop all other playing editors; when
it is not solo but some other solo editor is active, likewise; otherwise
leave every other editor running. -/
def evaluatePreempt (el : Nat) (s : PluginState) : PluginState :=
  if el ∈ s.elems then
    if (s.states el).isSolo = true then stopAllOtherPlayingEditors el s
    else if hasActiveSoloEditor el s = true then stopAllOtherPlayingEditors el s
    else s
  else s

/-- Source `handleEvaluate`: arbitration followed by `await editor.evaluate()`
(outcome `ok`); on success the requester's `isPlaying` is set, on failure it
is cleared.  The second component counts the engine `evaluate()` calls
issued (the handler always issues exactly one). -/
def handleEvaluateTr (el : Nat) (ok : Bool) (s : PluginState) :
    PluginState × Nat :=
  let s1 := evaluatePreempt el s
  let s2 :=
    if el ∈ s1.elems then setState el { s1.states el with isPlaying := ok } s1
    else s1
  (s2, 1)

/-- Source `handleEvaluate`, state component only. -/
def handleEvaluate (el : Nat) (ok : Bool) (s : PluginState) : PluginState :=
  (handleEvaluateTr el ok s).1

/-- Source `handleStop`: stops the requester's editor and clears its `isPlaying`. -/
def handleStop (el : Nat) (s : PluginState) : PluginState :=
  if el ∈ s.elems then setState el { s.states el with isPlaying := false } s
  else s

/-- The solo-button click handler: toggles `isSolo`; when solo was just
turned on and the block is playing, stops all other editors. -/
def soloToggle (el : Nat) (s : PluginState) : PluginState :=
  if el ∈ s.elems then
    let st := s.states el
    let s1 := setState el { st with isSolo := !st.isSolo } s
    if (!st.isSolo) = true ∧ st.isPlaying = true then stopAllOtherEditors el s1
    else s1
  else s

/-- The play-button click handler: a click while the registry says the block
is playing performs `handleStop`; otherwise `handleEvaluate` runs.  The
second component counts engine `evaluate()` calls. -/
def playClickTr (el : Nat) (ok : Bool) (s : PluginState) : PluginState × Nat :=
  if el ∈ s.elems ∧ (s.states el).isPlaying = true then (handleStop el s, 0)
  else handleEvaluateTr el ok s

/-- The update-button click handler: unconditionally `handleEvaluate`. -/
def updateClickTr (el : Nat) (ok : Bool) (s : PluginState) : PluginState × Nat :=
  handleEvaluateTr el ok s

/-- The body of `debouncedEvaluate`: returns early when the status indicator
has the `loading` class or when the registry says the block is not playing;
otherwise runs `handleEvaluate`. -/
def debouncedEvaluateBody (el : Nat) (loadingClass : Bool) (ok : Bool)
    (s : PluginState) : PluginState × Nat :=
  if loadingClass = true then (s, 0)
  else if el ∈ s.elems ∧ (s.states el).isPlaying = true then
    handleEvaluateTr el ok s
  else (s, 0)

/-- Number of registered blocks whose `isPlaying` flag is set. -/
def playingCount (s : PluginState) : Nat :=
  (s.elems.filter (fun e => (s.states e).isPlaying)).length

/-- Source `updateCodeBlockIfSafe(code)`: decides whether the live-edited text may
be written back into the markdown document.  Result: (a write happened,
the new `lastSavedCode`, the boolean the function returns). -/
def updateCodeBlockIfSafe (isTyping hasFocus : Bool) (st : Option EditorState)
    (code lastSavedCode : String) : Bool × String × Bool :=
  if isTyping = true ∨ hasFocus = true then (false, lastSavedCode, false)
  else if (match st with | some cs => cs.isPlaying | none => false) = true then
    (false, lastSavedCode, false)
  else if code ≠ lastSavedCode then (true, code, true)
  else (false, lastSavedCode, true)

/-- Source `child.onunload`: inside a try/catch whose failures are ignored, a write
of the pending text is attempted exactly when it differs from
`lastSavedCode` (no typing/playing/focus guard); then the editor is stopped
(failures swallowed) and the element is removed from both maps.  Result:
(registry after teardown, number of write attempts, teardown completed
normally). -/
def childOnunload (el : Nat) (_isTyping : Bool) (code lastSavedCode : String)
    (_writeFails _stopFails : Bool) (s : PluginState) :
    PluginState × Nat × Bool :=
  let attempts := if code ≠ lastSavedCode then 1 else 0
  let s1 := if el ∈ s.elems then { s with elems := s.elems.erase el } else s
  (s1, attempts, true)

/-- The user-facing operations of the play/stop/solo state machine: a play
request with its engine outcome (`handleEvaluate`), a stop request
(`handleStop`), and a solo toggle (the solo-button handler). -/
inductive Op where
  | play (el : Nat) (ok : Bool)
  | stop (el : Nat)
  | solo (el : Nat)

/-- One operation applied to the registry. -/
def applyOp : Op → PluginState → PluginState
  | .play el ok, s => handleEvaluate el ok s
  | .stop el, s => handleStop el s
  | .solo el, s => soloToggle el s

/-- A sequence of operations applied in order. -/
def runOps (ops : List Op) (s : PluginState) : PluginState :=
  ops.foldl (fun s o => applyOp o s) s

/-- The solo-exclusivity property: a block that is solo and playing is the
only playing block in the registry. -/
def Exclusive (s : PluginState) : Prop :=
  ∀ a ∈ s.elems, (s.states a).isSolo = true → (s.states a).isPlaying = true →
    ∀ b ∈ s.elems, b ≠ a → (s.states b).isPlaying = false

/-!  The `debounce(fn, wait)` utility from `src/utils`: each call clears the
pending timeout and arms a fresh one `wait` later with the latest argument;
in the single-threaded host a pending callback whose deadline has passed has
already run before the next call executes. -/

/-- State of one debounced function: the armed timeout (deadline and the
argument it captured) and the list of arguments `fn` has actually run on. -/
structure DebState (α : Type) where
  pending : Option (Nat × α)
  runs : List α
deriving Repr

/-- One invocation of the debounced wrapper at time `t` with argument `a`:
a pending callback whose deadline already passed has fired; an unexpired one
is cancelled by `clearTimeout`; then `setTimeout` arms `fn` for `t + wait`. -/
def debCall {α : Type} (wait t : Nat) (a : α) (s : DebState α) : DebState α :=
  let s1 : DebState α :=
    match s.pending with
    | some (d, b) =>
        if d ≤ t then { pending := none, runs := s.runs ++ [b] }
        else { s with pending := none }
    | none => s
  { s1 with pending := some (t + wait, a) }

/-- Once no further call arrives, a still-armed timeout eventually fires. -/
def debFlush {α : Type} (s : DebState α) : DebState α :=
  match s.pending with
  | some (_, b) => { pending := none, runs := s.runs ++ [b] }
  | none => s

/-- Run the debounced wrapper on a timed call sequence, then let the last
armed timeout fire. -/
def debRun {α : Type} (wait : Nat) (calls : List (Nat × α)) : DebState α :=
  debFlush (calls.foldl (fun s c => debCall wait c.1 c.2 s) ⟨none, []⟩)

/-- Calls in ascending time order with every gap shorter than the debounce
wait: one debounce window. -/
def WithinWindow {α : Type} (wait : Nat) (calls : List (Nat × α)) : Prop :=
  List.Chain' (fun p q => p.1 ≤ q.1 ∧ q.1 < p.1 + wait) calls

/-- Modelled from the spec: the Resource Governor / `PerformanceMonitor`
(`shouldPerformCleanup`, cleanup marking, 30 s default interval) is described
in the repository's documentation but its class is not among the sources;
only its counters and interval are specified.  State: the timestamp of the
last performed cleanup and the configured interval (milliseconds). -/
structure PerformanceMonitor where
  lastCleanupTime : Nat
  cleanupInterval : Nat

/-- Modelled from the spec: default cleanup interval, 30 seconds. -/
def defaultCleanupInterval : Nat := 30000

/-- Modelled from the spec: `shouldCleanup()` is true once at least the
configured interval has elapsed since the last cleanup mark. -/
def shouldCleanup (now : Nat) (m : PerformanceMonitor) : Bool :=
  decide (m.lastCleanupTime + m.cleanupInterval ≤ now)

/-- Modelled from the spec: `markCleanupPerformed()` records the current
time as the last-cleanup timestamp. -/
def markCleanupPerformed (now : Nat) (m : PerformanceMonitor) :
    PerformanceMonitor :=
  { m with lastCleanupTime := now }

instance (s : PluginState) : Decidable (Exclusive s) :=
  decidable_of_iff
    (∀ a ∈ s.elems, (s.states a).isSolo = true → (s.states a).isPlaying = true →
      ∀ b ∈ s.elems, b ≠ a → (s.states b).isPlaying = false) Iff.rfl

/-- Three freshly rendered blocks, none playing, none solo. -/
def ex0 : PluginState := ⟨[0, 1, 2], fun _ => ⟨false, false⟩⟩

/-- Two registered blocks: block 0 is an idle solo requester, block 1 is
playing (non-solo).  Read with `docOf = id`, they belong to two different
documents. -/
def ex5 : PluginState :=
  ⟨[0, 1], fun e => if e = 0 then ⟨false, true⟩ else ⟨true, false⟩⟩

/-- One registered block, currently playing, not solo. -/
def ex6 : PluginState := ⟨[0], fun _ => ⟨true, false⟩⟩

/-- Blocks 0 and 1 playing (non-solo); block 2 idle with solo set. -/
def ex7 : PluginState :=
  ⟨[0, 1, 2], fun e =>
    if e = 0 then ⟨true, false⟩
    else if e = 1 then ⟨true, false⟩
    else ⟨false, true⟩⟩

/-- Block 0 idle non-solo, block 1 playing non-solo. -/
def ex7w : PluginState :=
  ⟨[0, 1], fun e => if e = 1 then ⟨true, false⟩ else ⟨false, false⟩⟩

/-- Two blocks, both playing, none solo. -/
def ex10 : PluginState := ⟨[0, 1], fun _ => ⟨true, false⟩⟩

/-- One registered block, playing, not solo. -/
def ex4 : PluginState := ⟨[0], fun _ => ⟨true, false⟩⟩

/-! ### Basic lemmas about the registry operations -/

theorem setState_elems (el : Nat) (st : EditorState) (s : PluginState) :
    (setState el st s).elems = s.elems := rfl

theorem setState_states (el : Nat) (st : EditorState) (s : PluginState)
    (e : Nat) :
    (setState el st s).states e = if e = el then st else s.states e := rfl

theorem stopEditors_elems (p : Nat → EditorState → Bool) (s : PluginState) :
    (stopEditors p s).elems = s.elems := rfl

theorem stopEditors_states (p : Nat → EditorState → Bool) (s : PluginState)
    (e : Nat) :
    (stopEditors p s).states e =
      if e ∈ s.elems ∧ p e (s.states e) = true then
        { s.states e with isPlaying := false }
      else s.states e := by
  simp [stopEditors, stopEditorsF]

theorem stopOthers_states (cur : Nat) (s : PluginState) (e : Nat) :
    (stopAllOtherPlayingEditors cur s).states e =
      if e ∈ s.elems ∧ e ≠ cur ∧ (s.states e).isPlaying = true then
        { s.states e with isPlaying := false }
      else s.states e := by
  rw [stopAllOtherPlayingEditors, stopEditors_states]
  simp [Bool.and_eq_true, bne_iff_ne, and_assoc]

theorem stopAllOtherEditors_eq (cur : Nat) (s : PluginState) :
    stopAllOtherEditors cur s = stopAllOtherPlayingEditors cur s := rfl

theorem hasActiveSoloEditor_eq_true (excl : Nat) (s : PluginState) :
    hasActiveSoloEditor excl s = true ↔
      ∃ e ∈ s.elems, e ≠ excl ∧ (s.states e).isSolo = true ∧
        (s.states e).isPlaying = true := by
  simp [hasActiveSoloEditor, List.any_eq_true, Bool.and_eq_true, bne_iff_ne,
    and_assoc]

theorem evaluatePreempt_elems (el : Nat) (s : PluginState) :
    (evaluatePreempt el s).elems = s.elems := by
  unfold evaluatePreempt
  split
  · split
    · rfl
    · split <;> rfl
  · rfl

theorem evaluatePreempt_not_mem {el : Nat} {s : PluginState}
    (h : el ∉ s.elems) : evaluatePreempt el s = s := by
  unfold evaluatePreempt
  rw [if_neg h]

theorem evaluatePreempt_none {el : Nat} {s : PluginState}
    (hel : el ∈ s.elems) (hsolo : (s.states el).isSolo = false)
    (hact : hasActiveSoloEditor el s = false) :
    evaluatePreempt el s = s := by
  unfold evaluatePreempt
  rw [if_pos hel, if_neg (by simp [hsolo]), if_neg (by simp [hact])]

theorem evaluatePreempt_stop {el : Nat} {s : PluginState}
    (hel : el ∈ s.elems)
    (hcase : (s.states el).isSolo = true ∨ hasActiveSoloEditor el s = true) :
    evaluatePreempt el s = stopAllOtherPlayingEditors el s := by
  unfold evaluatePreempt
  rw [if_pos hel]
  rcases hcase with h | h
  · rw [if_pos h]
  · by_cases hsolo : (s.states el).isSolo = true
    · rw [if_pos hsolo]
    · rw [if_neg hsolo, if_pos h]

theorem handleEvaluate_eq (el : Nat) (ok : Bool) (s : PluginState) :
    handleEvaluate el ok s =
      if el ∈ s.elems then
        setState el { (evaluatePreempt el s).states el with isPlaying := ok }
          (evaluatePreempt el s)
      else evaluatePreempt el s := by
  unfold handleEvaluate handleEvaluateTr
  dsimp only
  rw [evaluatePreempt_elems]

theorem handleEvaluate_elems (el : Nat) (ok : Bool) (s : PluginState) :
    (handleEvaluate el ok s).elems = s.elems := by
  rw [handleEvaluate_eq]
  by_cases h : el ∈ s.elems
  · rw [if_pos h, setState_elems, evaluatePreempt_elems]
  · rw [if_neg h, evaluatePreempt_elems]

theorem handleEvaluate_not_mem {el : Nat} (ok : Bool) {s : PluginState}
    (h : el ∉ s.elems) : handleEvaluate el ok s = s := by
  rw [handleEvaluate_eq, if_neg h, evaluatePreempt_not_mem h]

theorem handleEvaluate_states_preempt {el : Nat} (ok : Bool) {s : PluginState}
    (hel : el ∈ s.elems)
    (hcase : (s.states el).isSolo = true ∨ hasActiveSoloEditor el s = true)
    (e : Nat) :
    (handleEvaluate el ok s).states e =
      if e = el then { s.states el with isPlaying := ok }
      else if e ∈ s.elems ∧ e ≠ el ∧ (s.states e).isPlaying = true then
        { s.states e with isPlaying := false }
      else s.states e := by
  rw [handleEvaluate_eq, if_pos hel, evaluatePreempt_stop hel hcase,
    setState_states]
  by_cases he : e = el
  · rw [if_pos he, if_pos he, stopOthers_states]
    rw [if_neg (by simp [he])]
  · rw [if_neg he, if_neg he, stopOthers_states]

theorem handleEvaluate_states_noPreempt {el : Nat} (ok : Bool)
    {s : PluginState} (hel : el ∈ s.elems)
    (hsolo : (s.states el).isSolo = false)
    (hact : hasActiveSoloEditor el s = false) (e : Nat) :
    (handleEvaluate el ok s).states e =
      if e = el then { s.states el with isPlaying := ok }
      else s.states e := by
  rw [handleEvaluate_eq, if_pos hel, evaluatePreempt_none hel hsolo hact,
    setState_states]

theorem handleStop_elems (el : Nat) (s : PluginState) :
    (handleStop el s).elems = s.elems := by
  unfold handleStop
  split <;> rfl

theorem handleStop_states (el : Nat) (s : PluginState) (e : Nat) :
    (handleStop el s).states e =
      if el ∈ s.elems ∧ e = el then { s.states el with isPlaying := false }
      else s.states e := by
  unfold handleStop
  by_cases h : el ∈ s.elems
  · rw [if_pos h, setState_states]
    by_cases he : e = el
    · rw [if_pos he, if_pos ⟨h, he⟩]
    · rw [if_neg he, if_neg (by simp [he])]
  · rw [if_neg h, if_neg (by simp [h])]

theorem soloToggle_elems (el : Nat) (s : PluginState) :
    (soloToggle el s).elems = s.elems := by
  unfold soloToggle
  split
  · dsimp only
    split <;> rfl
  · rfl

theorem soloToggle_not_mem {el : Nat} {s : PluginState} (h : el ∉ s.elems) :
    soloToggle el s = s := by
  unfold soloToggle
  rw [if_neg h]

theorem soloToggle_on_playing {el : Nat} {s : PluginState}
    (hel : el ∈ s.elems) (hsolo : (s.states el).isSolo = false)
    (hplay : (s.states el).isPlaying = true) (e : Nat) :
    (soloToggle el s).states e =
      if e = el then { s.states el with isSolo := true }
      else if e ∈ s.elems ∧ e ≠ el ∧ (s.states e).isPlaying = true then
        { s.states e with isPlaying := false }
      else s.states e := by
  unfold soloToggle
  rw [if_pos hel]
  dsimp only
  rw [if_pos ⟨by rw [hsolo]; rfl, hplay⟩, stopAllOtherEditors_eq,
    stopOthers_states, setState_elems]
  by_cases he : e = el
  · rw [if_pos he, if_neg (by simp [he]), setState_states, if_pos he, hsolo]
    rfl
  · rw [if_neg he, setState_states, if_neg he]

theorem soloToggle_other {el : Nat} {s : PluginState} (hel : el ∈ s.elems)
    (hc : (s.states el).isSolo = true ∨ (s.states el).isPlaying = false)
    (e : Nat) :
    (soloToggle el s).states e =
      if e = el then { s.states el with isSolo := !(s.states el).isSolo }
      else s.states e := by
  unfold soloToggle
  rw [if_pos hel]
  dsimp only
  rw [if_neg ?hcond, setState_states]
  case hcond =>
    rintro ⟨h1, h2⟩
    rcases hc with h | h
    · rw [h] at h1
      exact absurd h1 (by decide)
    · rw [h] at h2
      exact absurd h2 (by decide)

/-! ### Preservation of solo exclusivity -/

theorem preempt_stops_others {el : Nat} (ok : Bool) {s : PluginState}
    (hel : el ∈ s.elems)
    (hcase : (s.states el).isSolo = true ∨ hasActiveSoloEditor el s = true) :
    ∀ b ∈ s.elems, b ≠ el →
      ((handleEvaluate el ok s).states b).isPlaying = false := by
  intro b hb hbe
  rw [handleEvaluate_states_preempt ok hel hcase, if_neg hbe]
  by_cases hp : (s.states b).isPlaying = true
  · rw [if_pos ⟨hb, hbe, hp⟩]
  · rw [if_neg (by rintro ⟨-, -, h⟩; exact hp h)]
    exact Bool.eq_false_iff.mpr hp

theorem exclusive_handleEvaluate (el : Nat) (ok : Bool) (s : PluginState)
    (hs : Exclusive s) : Exclusive (handleEvaluate el ok s) := by
  by_cases hel : el ∈ s.elems
  · by_cases hcase :
        (s.states el).isSolo = true ∨ hasActiveSoloEditor el s = true
    · intro a ha hsolo hplay b hb hba
      rw [handleEvaluate_elems] at ha hb
      by_cases hae : a = el
      · exact preempt_stops_others ok hel hcase b hb (hae ▸ hba)
      · exact absurd hplay (by simp [preempt_stops_others ok hel hcase a ha hae])
    · push_neg at hcase
      obtain ⟨h1, h2⟩ := hcase
      have h1' : (s.states el).isSolo = false := Bool.eq_false_iff.mpr h1
      have h2' : hasActiveSoloEditor el s = false := Bool.eq_false_iff.mpr h2
      intro a ha hsolo hplay b hb hba
      rw [handleEvaluate_elems] at ha hb
      rw [handleEvaluate_states_noPreempt ok hel h1' h2'] at hsolo hplay
      rw [handleEvaluate_states_noPreempt ok hel h1' h2']
      by_cases hae : a = el
      · rw [if_pos hae] at hsolo
        have : (s.states el).isSolo = true := hsolo
        rw [h1'] at this
        exact absurd this (by decide)
      · rw [if_neg hae] at hsolo hplay
        have : hasActiveSoloEditor el s = true :=
          (hasActiveSoloEditor_eq_true el s).mpr ⟨a, ha, hae, hsolo, hplay⟩
        rw [h2'] at this
        exact absurd this (by decide)
  · rw [handleEvaluate_not_mem ok hel]
    exact hs

theorem exclusive_handleStop (el : Nat) (s : PluginState)
    (hs : Exclusive s) : Exclusive (handleStop el s) := by
  intro a ha hsolo hplay b hb hba
  rw [handleStop_elems] at ha hb
  rw [handleStop_states el s a] at hsolo hplay
  rw [handleStop_states el s b]
  by_cases hae : el ∈ s.elems ∧ a = el
  · rw [if_pos hae] at hplay
    exact absurd hplay (by simp)
  · rw [if_neg hae] at hsolo hplay
    have hres := hs a ha hsolo hplay b hb hba
    by_cases hbe : el ∈ s.elems ∧ b = el
    · rw [if_pos hbe]
    · rw [if_neg hbe]
      exact hres

theorem exclusive_soloToggle (el : Nat) (s : PluginState)
    (hs : Exclusive s) : Exclusive (soloToggle el s) := by
  by_cases hel : el ∈ s.elems
  · by_cases hcond : (s.states el).isSolo = false ∧ (s.states el).isPlaying = true
    · obtain ⟨hsolo0, hplay0⟩ := hcond
      have hpost : ∀ c ∈ s.elems, c ≠ el →
          ((soloToggle el s).states c).isPlaying = false := by
        intro c hc hce
        rw [soloToggle_on_playing hel hsolo0 hplay0, if_neg hce]
        by_cases hp : (s.states c).isPlaying = true
        · rw [if_pos ⟨hc, hce, hp⟩]
        · rw [if_neg (by rintro ⟨-, -, h⟩; exact hp h)]
          exact Bool.eq_false_iff.mpr hp
      intro a ha hsolo hplay b hb hba
      rw [soloToggle_elems] at ha hb
      by_cases hae : a = el
      · exact hpost b hb (hae ▸ hba)
      · exact absurd hplay (by simp [hpost a ha hae])
    · have hc : (s.states el).isSolo = true ∨ (s.states el).isPlaying = false := by
        by_cases h1 : (s.states el).isSolo = true
        · exact Or.inl h1
        · right
          exact Bool.eq_false_iff.mpr fun hp =>
            hcond ⟨Bool.eq_false_iff.mpr h1, hp⟩
      intro a ha hsolo hplay b hb hba
      rw [soloToggle_elems] at ha hb
      rw [soloToggle_other hel hc a] at hsolo hplay
      rw [soloToggle_other hel hc b]
      by_cases hae : a = el
      · rw [if_pos hae] at hsolo hplay
        have hplay' : (s.states el).isPlaying = true := hplay
        have hsolo' : (!(s.states el).isSolo) = true := hsolo
        rcases hc with h | h
        · rw [h] at hsolo'
          exact absurd hsolo' (by decide)
        · rw [h] at hplay'
          exact absurd hplay' (by decide)
      · rw [if_neg hae] at hsolo hplay
        have hres := hs a ha hsolo hplay
        by_cases hbe : b = el
        · rw [if_pos hbe]
          exact hres el hel (hbe ▸ hba)
        · rw [if_neg hbe]
          exact hres b hb hba
  · rw [soloToggle_not_mem hel]
    exact hs

theorem exclusive_applyOp (o : Op) (s : PluginState) (hs : Exclusive s) :
    Exclusive (applyOp o s) := by
  cases o with
  | play el ok => exact exclusive_handleEvaluate el ok s hs
  | stop el => exact exclusive_handleStop el s hs
  | solo el => exact exclusive_soloToggle el s hs

/-! ### The claims -/

/-- C1: in every registry state reachable by any sequence of play requests
(`handleEvaluate` with its engine outcome), stop requests (`handleStop`) and
solo toggles from a state satisfying solo exclusivity, if some block has
`isSolo ∧ isPlaying` then no other registered block has `isPlaying`. -/
theorem claim_C1_exclusivity_invariant (ops : List Op) (s : PluginState)
    (hs : Exclusive s) : Exclusive (runOps ops s) := by
  induction ops generalizing s with
  | nil => exact hs
  | cons o ops ih => exact ih (applyOp o s) (exclusive_applyOp o s hs)

/-- Witness for C1: three idle blocks, then play 0, solo-toggle 1, play 1,
play 2. -/
theorem claim_C1_witness :
    Exclusive ex0 ∧
      Exclusive
        (runOps [Op.play 0 true, Op.solo 1, Op.play 1 true, Op.play 2 true]
          ex0) :=
  ⟨by decide,
   claim_C1_exclusivity_invariant
     [Op.play 0 true, Op.solo 1, Op.play 1 true, Op.play 2 true] ex0
     (by decide)⟩

/-- C2: arbitration on a play request.  (1) A solo requester stops every
other playing block.  (2) A non-solo requester facing an active solo block
stops every other playing block.  (3) Otherwise no other block is touched,
and on success the requester also plays, so two non-solo blocks can play
simultaneously. -/
theorem claim_C2_arbitration (s : PluginState) (el : Nat) (ok : Bool)
    (hel : el ∈ s.elems) :
    ((s.states el).isSolo = true →
      ∀ b ∈ s.elems, b ≠ el →
        ((handleEvaluate el ok s).states b).isPlaying = false)
    ∧ ((s.states el).isSolo = false → hasActiveSoloEditor el s = true →
      ∀ b ∈ s.elems, b ≠ el →
        ((handleEvaluate el ok s).states b).isPlaying = false)
    ∧ ((s.states el).isSolo = false → hasActiveSoloEditor el s = false →
      (∀ b, b ≠ el → (handleEvaluate el ok s).states b = s.states b)
      ∧ (ok = true → ((handleEvaluate el ok s).states el).isPlaying = true)) := by
  refine ⟨?_, ?_, ?_⟩
  · intro hsolo
    exact preempt_stops_others ok hel (Or.inl hsolo)
  · intro _ hact
    exact preempt_stops_others ok hel (Or.inr hact)
  · intro hsolo hact
    constructor
    · intro b hbe
      rw [handleEvaluate_states_noPreempt ok hel hsolo hact, if_neg hbe]
    · intro hok
      rw [handleEvaluate_states_noPreempt ok hel hsolo hact, if_pos rfl, hok]

/-- Witness for C2: solo block 2 requests play while blocks 0 and 1 are
playing; arbitration stops block 0. -/
theorem claim_C2_witness :
    (2 ∈ ex7.elems ∧ (ex7.states 2).isSolo = true)
    ∧ ((handleEvaluate 2 true ex7).states 0).isPlaying = false :=
  ⟨by decide,
   (claim_C2_arbitration ex7 2 true (by decide)).1 (by decide) 0 (by decide)
     (by decide)⟩

/-- C3: a live-edit flush (`updateCodeBlockIfSafe`) writes into the
persisted document exactly when the user is not typing, the editing surface
does not hold focus, the block is not playing, and the text differs from
the last synced text; any single failing condition means no write. -/
theorem claim_C3_sync_guard (isTyping hasFocus : Bool) (cs : EditorState)
    (code lastSaved : String) :
    (updateCodeBlockIfSafe isTyping hasFocus (some cs) code lastSaved).1 = true
      ↔ isTyping = false ∧ hasFocus = false ∧ cs.isPlaying = false
        ∧ code ≠ lastSaved := by
  cases isTyping <;> cases hasFocus <;> cases hp : cs.isPlaying <;>
    by_cases hc : code = lastSaved <;>
      simp [updateCodeBlockIfSafe, hp, hc]

/-- C4: at controller teardown (`child.onunload`), when the current text
differs from the last synced text, exactly one write attempt occurs — with
arbitrary typing flag, playing state and write/stop failures, so the
`isTyping`/`Playing` guards are bypassed — and teardown completes normally
even when the write fails. -/
theorem claim_C4_forced_flush (el : Nat) (isTyping : Bool)
    (code lastSaved : String) (writeFails stopFails : Bool) (s : PluginState)
    (hdiff : code ≠ lastSaved) :
    (childOnunload el isTyping code lastSaved writeFails stopFails s).2.1 = 1
    ∧ (childOnunload el isTyping code lastSaved writeFails stopFails s).2.2
        = true := by
  refine ⟨?_, rfl⟩
  unfold childOnunload
  dsimp only
  rw [if_pos hdiff]

/-- Witness for C4: a playing block being torn down while typing, with both
the write and the stop failing: one write attempt, normal completion. -/
theorem claim_C4_witness :
    ("b" : String) ≠ "a"
    ∧ (childOnunload 0 true "b" "a" true true ex4).2.1 = 1
    ∧ (childOnunload 0 true "b" "a" true true ex4).2.2 = true :=
  ⟨by decide,
   (claim_C4_forced_flush 0 true "b" "a" true true ex4 (by decide)).1,
   (claim_C4_forced_flush 0 true "b" "a" true true ex4 (by decide)).2⟩

/-- C5 counterexample: the registry `editorStates` is plugin-wide, not
session-scoped, and the arbitration predicate never consults document
identity, so a play request in one document stops a playing block of
another document.  With `docOf = id`, block 1 (document 1) is stopped by
solo block 0's request (document 0), refuting the session-frame claim. -/
theorem claim_C5_counterexample :
    ¬ ∀ (docOf : Nat → Nat) (s : PluginState) (el : Nat) (ok : Bool)
        (b : Nat), b ∈ s.elems → docOf b ≠ docOf el →
          (handleEvaluate el ok s).states b = s.states b := by
  intro h
  have h1 := h id ex5 0 true 1 (by decide) (by decide)
  exact absurd h1 (by decide)

/-- C5 amended: arbitration operates on the whole plugin-wide registry
regardless of document; what does hold is a frame over that registry: a
play request never flips another block's `isSolo`, never starts another
block, and leaves any other non-playing block's state fully unchanged. -/
theorem claim_C5_frame_amended (s : PluginState) (el : Nat) (ok : Bool)
    (b : Nat) (hb : b ≠ el) :
    ((handleEvaluate el ok s).states b).isSolo = (s.states b).isSolo
    ∧ (((handleEvaluate el ok s).states b).isPlaying = true →
        (s.states b).isPlaying = true)
    ∧ ((s.states b).isPlaying = false →
        (handleEvaluate el ok s).states b = s.states b) := by
  by_cases hel : el ∈ s.elems
  · by_cases hcase :
        (s.states el).isSolo = true ∨ hasActiveSoloEditor el s = true
    · rw [handleEvaluate_states_preempt ok hel hcase, if_neg hb]
      by_cases hstop : b ∈ s.elems ∧ b ≠ el ∧ (s.states b).isPlaying = true
      · rw [if_pos hstop]
        exact ⟨rfl, fun h => absurd h (by simp), fun h => absurd hstop.2.2 (by simp [h])⟩
      · rw [if_neg hstop]
        exact ⟨rfl, fun h => h, fun _ => rfl⟩
    · push_neg at hcase
      obtain ⟨h1, h2⟩ := hcase
      rw [handleEvaluate_states_noPreempt ok hel (Bool.eq_false_iff.mpr h1)
        (Bool.eq_false_iff.mpr h2), if_neg hb]
      exact ⟨rfl, fun h => h, fun _ => rfl⟩
  · rw [handleEvaluate_not_mem ok hel]
    exact ⟨rfl, fun h => h, fun _ => rfl⟩

/-- Witness for C5 (amended): solo block 0's request stops block 1 but
leaves its `isSolo` flag intact. -/
theorem claim_C5_witness :
    (1 : Nat) ≠ 0
    ∧ ((handleEvaluate 0 true ex5).states 1).isSolo = (ex5.states 1).isSolo :=
  ⟨by decide, (claim_C5_frame_amended ex5 0 true 1 (by decide)).1⟩

/-- C6 counterexample: a play request on a block whose status is already
Playing is not a no-op.  The update button invokes `handleEvaluate`
unconditionally, which runs arbitration and issues a fresh engine
`evaluate()` call: on the playing block of `ex6` the claimed
"state unchanged, zero evaluate calls" result is false. -/
theorem claim_C6_counterexample :
    ¬ ∀ (s : PluginState) (el : Nat), el ∈ s.elems →
        (s.states el).isPlaying = true →
          ∀ ok : Bool, updateClickTr el ok s = (s, 0) := by
  intro h
  have h1 := congrArg Prod.snd (h ex6 0 (by decide) (by decide) true)
  exact absurd h1 (by decide)

/-- C6 amended: `handleEvaluate` carries no Loading/Playing guard — a play
request through the update button always issues exactly one engine
`evaluate()` call, whatever the status; a play-button click while the block
is Playing performs a stop instead of a play; only the debounced
auto-evaluate path is guarded, returning without any evaluate call when the
status indicator shows `loading` or when the block is not playing. -/
theorem claim_C6_no_guard_amended (s : PluginState) (el : Nat) (ok : Bool) :
    (updateClickTr el ok s).2 = 1
    ∧ (el ∈ s.elems → (s.states el).isPlaying = true →
        playClickTr el ok s = (handleStop el s, 0))
    ∧ debouncedEvaluateBody el true ok s = (s, 0)
    ∧ (el ∈ s.elems → (s.states el).isPlaying = false →
        debouncedEvaluateBody el false ok s = (s, 0)) := by
  refine ⟨rfl, ?_, rfl, ?_⟩
  · intro h1 h2
    rw [playClickTr, if_pos ⟨h1, h2⟩]
  · intro h1 h2
    rw [debouncedEvaluateBody, if_neg (by simp),
      if_neg fun hc => absurd hc.2 (by simp [h2])]

/-- Witness for C6 (amended): on the playing block of `ex6`, the update
button issues one evaluate call and the play button performs a stop. -/
theorem claim_C6_witness :
    (0 ∈ ex6.elems ∧ (ex6.states 0).isPlaying = true)
    ∧ (updateClickTr 0 true ex6).2 = 1
    ∧ playClickTr 0 true ex6 = (handleStop 0 ex6, 0) :=
  ⟨by decide, (claim_C6_no_guard_amended ex6 0 true).1,
   (claim_C6_no_guard_amended ex6 0 true).2.1 (by decide) (by decide)⟩

/-- C7 counterexample: the round trip fails on a state where solo block 2
requests play while blocks 0 and 1 are playing: arbitration stops both, so
after block 2's successful play and subsequent stop the playing count is 0,
not the pre-play value 2. -/
theorem claim_C7_counterexample :
    playingCount (handleStop 2 (handleEvaluate 2 true ex7)) ≠
      playingCount ex7 := by decide

/-- C7 amended: a successful play request followed by a stop on the same
block restores the playing count, provided the requester was not already
playing and arbitration preempts nobody (requester non-solo and no active
solo block). -/
theorem claim_C7_round_trip_amended (s : PluginState) (el : Nat)
    (hel : el ∈ s.elems) (hplay : (s.states el).isPlaying = false)
    (hsolo : (s.states el).isSolo = false)
    (hact : hasActiveSoloEditor el s = false) :
    playingCount (handleStop el (handleEvaluate el true s)) =
      playingCount s := by
  unfold playingCount
  rw [handleStop_elems, handleEvaluate_elems]
  refine congrArg List.length (List.filter_congr ?_)
  intro e he
  rw [handleStop_states el (handleEvaluate el true s) e]
  by_cases hee : e = el
  · rw [if_pos ⟨by rw [handleEvaluate_elems]; exact hee ▸ he, hee⟩, hee, hplay]
  · rw [if_neg fun hc => hee hc.2,
      handleEvaluate_states_noPreempt true hel hsolo hact, if_neg hee]

/-- Witness for C7 (amended): block 0 idle and non-solo next to playing
non-solo block 1: play then stop on block 0 restores the count. -/
theorem claim_C7_witness :
    (0 ∈ ex7w.elems ∧ (ex7w.states 0).isPlaying = false
      ∧ (ex7w.states 0).isSolo = false
      ∧ hasActiveSoloEditor 0 ex7w = false)
    ∧ playingCount (handleStop 0 (handleEvaluate 0 true ex7w)) =
        playingCount ex7w :=
  ⟨by decide,
   claim_C7_round_trip_amended ex7w 0 (by decide) (by decide) (by decide)
     (by decide)⟩

theorem debCall_cancel {α : Type} (wait t u : Nat) (a b : α) (rs : List α)
    (h : u < t + wait) :
    debCall wait u b (⟨some (t + wait, a), rs⟩ : DebState α) =
      ⟨some (u + wait, b), rs⟩ := by
  unfold debCall
  dsimp only
  rw [if_neg (Nat.not_le.mpr h)]

theorem deb_fold {α : Type} (wait : Nat) (l : List (Nat × α)) :
    ∀ (t : Nat) (a : α) (rs : List α),
      WithinWindow wait ((t, a) :: l) →
      l.foldl (fun s c => debCall wait c.1 c.2 s)
          (⟨some (t + wait, a), rs⟩ : DebState α) =
        ⟨some ((l.getLastD (t, a)).1 + wait, (l.getLastD (t, a)).2), rs⟩ := by
  induction l with
  | nil => intro t a rs _; rfl
  | cons c l ih =>
      intro t a rs h
      rw [WithinWindow, List.chain'_cons] at h
      obtain ⟨⟨-, hlt⟩, h2⟩ := h
      rw [List.foldl_cons, debCall_cancel wait t c.1 a c.2 rs hlt,
        List.getLastD_cons]
      have h2' : WithinWindow wait ((c.1, c.2) :: l) := by
        rwa [Prod.mk.eta]
      rw [ih c.1 c.2 rs h2', Prod.mk.eta]

/-- C8: N ≥ 1 invocations of a `debounce`d function within one debounce
window (calls in time order, each gap shorter than the wait) make the
wrapped function run exactly once, with the argument of the last
invocation. -/
theorem claim_C8_debounce_coalescing {α : Type} (wait : Nat)
    (calls : List (Nat × α)) (hne : calls ≠ [])
    (hwin : WithinWindow wait calls) :
    (debRun wait calls).runs = [(calls.getLast hne).2] := by
  match calls with
  | [] => exact absurd rfl hne
  | c :: l =>
      unfold debRun
      have hfirst :
          debCall wait c.1 c.2 (⟨none, []⟩ : DebState α) =
            ⟨some (c.1 + wait, c.2), []⟩ := rfl
      have hwin' : WithinWindow wait ((c.1, c.2) :: l) := by
        rwa [Prod.mk.eta]
      rw [List.foldl_cons, hfirst, deb_fold wait l c.1 c.2 [] hwin']
      unfold debFlush
      dsimp only
      rw [List.nil_append, List.getLast_eq_getLastD, Prod.mk.eta]

/-- Witness for C8: three calls 10 ms apart under a 500 ms wait coalesce
into one run with the last argument. -/
theorem claim_C8_witness :
    (([(0, 1), (10, 2), (20, 3)] : List (Nat × Nat)) ≠ []
      ∧ WithinWindow 500 ([(0, 1), (10, 2), (20, 3)] : List (Nat × Nat)))
    ∧ (debRun 500 ([(0, 1), (10, 2), (20, 3)] : List (Nat × Nat))).runs
        = [3] := by
  refine ⟨⟨by decide, by simp [WithinWindow]⟩, ?_⟩
  rw [claim_C8_debounce_coalescing 500 [(0, 1), (10, 2), (20, 3)] (by decide)
    (by simp [WithinWindow])]
  rfl

/-- C9: `shouldCleanup` is false immediately after `markCleanupPerformed`,
and afterwards becomes true exactly once the configured interval has
elapsed since the mark.  (Governor modelled from the spec; its class is not
among the sources.) -/
theorem claim_C9_governor_interval (m : PerformanceMonitor) (now : Nat)
    (hpos : 0 < m.cleanupInterval) :
    shouldCleanup now (markCleanupPerformed now m) = false
    ∧ ∀ t, shouldCleanup t (markCleanupPerformed now m) = true ↔
        now + m.cleanupInterval ≤ t := by
  constructor
  · unfold shouldCleanup markCleanupPerformed
    simp only [decide_eq_false_iff_not]
    omega
  · intro t
    unfold shouldCleanup markCleanupPerformed
    simp

/-- Witness for C9: marking at t = 5 with the 30 s default interval. -/
theorem claim_C9_witness :
    0 < (⟨0, defaultCleanupInterval⟩ : PerformanceMonitor).cleanupInterval
    ∧ shouldCleanup 5
        (markCleanupPerformed 5 ⟨0, defaultCleanupInterval⟩) = false
    ∧ (shouldCleanup 30005
        (markCleanupPerformed 5 ⟨0, defaultCleanupInterval⟩) = true ↔
          5 + (⟨0, defaultCleanupInterval⟩ : PerformanceMonitor).cleanupInterval
            ≤ 30005) :=
  ⟨by decide,
   (claim_C9_governor_interval ⟨0, defaultCleanupInterval⟩ 5 (by decide)).1,
   (claim_C9_governor_interval ⟨0, defaultCleanupInterval⟩ 5 (by decide)).2
     30005⟩

/-- C10: in `stopEditors`, each matching block's stop runs inside its own
try/catch, so a block whose own stop does not throw always ends with
`isPlaying = false` and every matching block's stop is attempted, no matter
which other stops throw. -/
theorem claim_C10_fault_isolation (p : Nat → EditorState → Bool)
    (fails : Nat → Bool) (s : PluginState) (b : Nat)
    (hb : b ∈ s.elems) (hp : p b (s.states b) = true)
    (hf : fails b = false) :
    (((stopEditorsF p fails s).1.states b).isPlaying = false)
    ∧ b ∈ (stopEditorsF p fails s).2 := by
  constructor
  · unfold stopEditorsF
    dsimp only
    rw [if_pos ⟨hb, hp, hf⟩]
  · unfold stopEditorsF
    dsimp only
    exact List.mem_filter.mpr ⟨hb, hp⟩

/-- Witness for C10: both blocks of `ex10` are playing; block 0's stop
throws, yet block 1 is still stopped and both stops are attempted. -/
theorem claim_C10_witness :
    (1 ∈ ex10.elems
      ∧ (fun (_ : Nat) (st : EditorState) => st.isPlaying) 1 (ex10.states 1)
          = true
      ∧ (fun e : Nat => e == 0) 1 = false)
    ∧ (((stopEditorsF (fun _ st => st.isPlaying) (fun e => e == 0)
          ex10).1.states 1).isPlaying = false
      ∧ 1 ∈ (stopEditorsF (fun _ st => st.isPlaying) (fun e => e == 0)
          ex10).2) :=
  ⟨⟨by decide, by decide, by decide⟩,
   claim_C10_fault_isolation (fun _ st => st.isPlaying) (fun e => e == 0)
     ex10 1 (by decide) (by decide) (by decide)⟩
